import Mathlib

set_option maxRecDepth 100000
set_option maxHeartbeats 1000000

namespace Honeymail

/-!
Shallow embedding of the honeymail SMTP honeypot.

The embedding follows `src/smtpd/server.go` (the accept loop `Start` and the
per-connection command loop `handleTCPConnection`) and the JSON controller in
the `api` package.  Byte streams on the wire are modelled as `List Char`
(all traffic is ASCII).  The pieces of the repository that `server.go` calls
but whose files are not part of the source tree here (the `clientSession`
methods, the command parser, the `envelope` package and the reply-string
constants) are modelled from the specification and marked as such in their
doc comments.
-/

/-- State of Go's `textproto` dot-decoder, as used by `reader.ReadDotBytes()`
in the DATA branch of `handleTCPConnection`.  The five states mirror
`stateBeginLine`, `stateDot`, `stateDotCR`, `stateCR` and `stateData` of the
Go standard library's `net/textproto` dot reader. -/
inductive DotState
  | beginLine
  | dot
  | dotCR
  | cr
  | data
deriving DecidableEq, Repr

/-- Core of the dot-decoding state machine of Go's `net/textproto` dot
reader (called through `ReadDotBytes` in `server.go`).  It undoes SMTP
dot-stuffing, strips the terminating dot line and maps CRLF line endings to
LF, exactly as the Go code does.  `acc` holds the decoded bytes in reverse.
Returns `some (decoded, restOfStream)` when the terminating dot line is
found, and `none` when the input ends first (a read error in `server.go`).
The Go states that call `UnreadByte` are encoded by processing the consumed
character inline in `data` state. -/
def dotDecodeAux : DotState → List Char → List Char → Option (List Char × List Char)
  | _, _, [] => none
  | .beginLine, acc, c :: rest =>
    if c = '.' then dotDecodeAux .dot acc rest
    else if c = '\r' then dotDecodeAux .cr acc rest
    else dotDecodeAux .data (c :: acc) rest
  | .dot, acc, c :: rest =>
    if c = '\r' then dotDecodeAux .dotCR acc rest
    else if c = '\n' then some (acc.reverse, rest)
    else dotDecodeAux .data (c :: acc) rest
  | .dotCR, acc, c :: rest =>
    if c = '\n' then some (acc.reverse, rest)
    else if c = '\r' then dotDecodeAux .cr ('\r' :: acc) rest
    else dotDecodeAux .data (c :: '\r' :: acc) rest
  | .cr, acc, c :: rest =>
    if c = '\n' then dotDecodeAux .beginLine ('\n' :: acc) rest
    else if c = '\r' then dotDecodeAux .cr ('\r' :: acc) rest
    else dotDecodeAux .data (c :: '\r' :: acc) rest
  | .data, acc, c :: rest =>
    if c = '\r' then dotDecodeAux .cr acc rest
    else if c = '\n' then dotDecodeAux .beginLine ('\n' :: acc) rest
    else dotDecodeAux .data (c :: acc) rest

/-- Model of `reader.ReadDotBytes()` (server.go line 167): decode the
dot-terminated DATA body from the head of the stream. -/
def readDotBytes (input : List Char) : Option (List Char × List Char) :=
  dotDecodeAux .beginLine [] input

/-- Split the stream at the first LF: returns the bytes before it and the
bytes after it.  When no LF is present the whole stream is the line. -/
def splitLine : List Char → List Char × List Char
  | [] => ([], [])
  | c :: rest =>
    if c = '\n' then ([], rest)
    else
      let p := splitLine rest
      (c :: p.1, p.2)

/-- Drop one trailing CR, as the Go line readers do for a CRLF ending. -/
def stripTrailingCR (l : List Char) : List Char :=
  match l.reverse with
  | '\r' :: t => t.reverse
  | _ => l

/-- Model of `reader.ReadLine()` (server.go line 198): one line with its
CRLF (or LF) terminator removed, plus the rest of the stream.  `server.go`
ignores the error returned by `ReadLine`, so end of input simply yields the
empty line, which the parser then rejects. -/
def readLineT (input : List Char) : String × List Char :=
  let p := splitLine input
  (String.mk (stripTrailingCR p.1), p.2)

/-- The SMTP verbs recognised by the parser (spec section 4.1). -/
inductive SMTPCmd
  | HELO
  | EHLO
  | MAILFROM
  | RCPTTO
  | DATA
  | RSET
  | NOOP
  | VRFY
  | EXPN
  | HELP
  | QUIT
  | STARTTLS
  | AUTH
deriving DecidableEq, Repr

/-- Result of parsing one command line.  In the Go code `ParsedCommand` is a
struct whose `Response` field is non-empty exactly when parsing failed;
`handleTCPConnection` tests `command.Response != ""` before using
`command.Cmd`, so the struct is faithfully an either type. -/
inductive ParsedCommand
  | ok (cmd : SMTPCmd) (arg : String)
  | errResp (response : String)
deriving DecidableEq, Repr

/-- Uppercase one ASCII letter, leaving every other character alone (the
verb match of the parser is case-insensitive). -/
def upChar (c : Char) : Char :=
  if 97 ≤ c.toNat ∧ c.toNat ≤ 122 then Char.ofNat (c.toNat - 32) else c

/-- Case-folded copy of a line's characters. -/
def upList (l : List Char) : List Char := l.map upChar

/-- Bool test that the second list starts with the first. -/
def listStartsWith : List Char → List Char → Bool
  | [], _ => true
  | _ :: _, [] => false
  | p :: ps, c :: cs => p == c && listStartsWith ps cs

/-- Strip leading and trailing spaces (the parser tolerates excess
whitespace). -/
def trimSpaces (l : List Char) : List Char :=
  ((l.dropWhile (· == ' ')).reverse.dropWhile (· == ' ')).reverse

/-- Break a character list at the first space: the token before it and the
remainder after it. -/
def breakAtSpace : List Char → List Char × List Char
  | [] => ([], [])
  | c :: rest =>
    if c == ' ' then ([], rest)
    else
      let p := breakAtSpace rest
      (c :: p.1, p.2)

/-- Modelled from the spec: angle brackets around the address argument are
tolerated and stripped (section 4.1). -/
def stripAngles (s : String) : String :=
  let t := trimSpaces s.toList
  if listStartsWith ['<'] t && listStartsWith ['>'] t.reverse then
    String.mk ((t.drop 1).dropLast)
  else String.mk t

/-- Modelled from the spec: `ParseCmd` (section 4.1); the parser file is not
under src/.  Verb matching is case-insensitive, `MAIL FROM:` and `RCPT TO:`
require the colon and their argument has surrounding angle brackets
stripped, unknown verbs yield the 500 reply. -/
def parseCmd (line : String) : ParsedCommand :=
  let chars := line.toList
  let up := upList chars
  if listStartsWith ("MAIL FROM:".toList) up then
    .ok .MAILFROM (stripAngles (String.mk (chars.drop 10)))
  else if listStartsWith ("RCPT TO:".toList) up then
    .ok .RCPTTO (stripAngles (String.mk (chars.drop 8)))
  else
    let t := trimSpaces chars
    let p := breakAtSpace t
    let verb := upList p.1
    let arg := String.mk p.2
    if verb = "HELO".toList then .ok .HELO arg
    else if verb = "EHLO".toList then .ok .EHLO arg
    else if verb = "DATA".toList then .ok .DATA arg
    else if verb = "RSET".toList then .ok .RSET arg
    else if verb = "NOOP".toList then .ok .NOOP arg
    else if verb = "VRFY".toList then .ok .VRFY arg
    else if verb = "EXPN".toList then .ok .EXPN arg
    else if verb = "HELP".toList then .ok .HELP arg
    else if verb = "QUIT".toList then .ok .QUIT arg
    else if verb = "STARTTLS".toList then .ok .STARTTLS arg
    else if verb = "AUTH".toList then .ok .AUTH arg
    else .errResp "500 Syntax error, command unrecognized"

/-- Break a character list at the first occurrence of `ch`. -/
def breakAt (ch : Char) : List Char → Option (List Char × List Char)
  | [] => none
  | c :: rest =>
    if c == ch then some ([], rest)
    else (breakAt ch rest).map fun p => (c :: p.1, p.2)

/-- Shallow model of `net/mail.ParseAddress` as called by
`verifyEmailAddress` (server.go line 392): accepts `local@domain` with
non-empty local part and domain and a single at sign.  The claims under
verification only need that well-formed addresses such as `a@b` are
accepted. -/
def verifyEmailAddress (email : String) : Option String :=
  match breakAt '@' email.toList with
  | none => none
  | some (l, d) =>
    if !l.isEmpty && !d.isEmpty && !d.contains '@' then some email else none

/-- Modelled from the spec: the `envelope.Envelope` record (spec section 3);
the envelope package is not under src/.  Field names follow the Go fields
used by `server.go` (`Id`, `From`, `To`, `Message`, `SecurelyDelivered`,
and `AddForward` appending to the forwards list). -/
structure Envelope where
  Id : String
  RemoteAddress : String
  From : Option String := none
  To : Option String := none
  Forwards : List String := []
  Message : List Char := []
  SecurelyDelivered : Bool := false
deriving DecidableEq, Repr

/-- Modelled from the spec: `envelope.NewEnvelope` assigns a fresh id and
the remote address; all other fields start at their zero values (in
particular `SecurelyDelivered = false`). -/
def newEnvelope (id remoteAddr : String) : Envelope :=
  { Id := id, RemoteAddress := remoteAddr }

/-- Sequence states of the session (spec section 4.2). -/
inductive SeqState
  | GREETED
  | HELO_OK
  | FROM_OK
  | RCPT_OK
  | DATA_MODE
  | POST_DATA
deriving DecidableEq, Repr

/-- Modelled from the spec: `clientSession.verifyState` and its sequence
table (spec section 4.2); the clientSession file is not under src/.
Returns true when the verb is permitted in the given state. -/
def verifyState (st : SeqState) (cmd : SMTPCmd) : Bool :=
  match st, cmd with
  | .GREETED, .HELO => true
  | .GREETED, .EHLO => true
  | .GREETED, .NOOP => true
  | .GREETED, .RSET => true
  | .GREETED, .QUIT => true
  | .GREETED, .STARTTLS => true
  | .HELO_OK, .MAILFROM => true
  | .HELO_OK, .NOOP => true
  | .HELO_OK, .RSET => true
  | .HELO_OK, .QUIT => true
  | .HELO_OK, .STARTTLS => true
  | .HELO_OK, .EHLO => true
  | .HELO_OK, .HELO => true
  | .HELO_OK, .HELP => true
  | .HELO_OK, .VRFY => true
  | .HELO_OK, .EXPN => true
  | .HELO_OK, .AUTH => true
  | .FROM_OK, .RCPTTO => true
  | .FROM_OK, .RSET => true
  | .FROM_OK, .NOOP => true
  | .FROM_OK, .QUIT => true
  | .RCPT_OK, .RCPTTO => true
  | .RCPT_OK, .DATA => true
  | .RCPT_OK, .RSET => true
  | .RCPT_OK, .NOOP => true
  | .RCPT_OK, .QUIT => true
  | .POST_DATA, .RSET => true
  | .POST_DATA, .QUIT => true
  | _, _ => false

/-- Per-session mutable state owned by `handleTCPConnection`: the sequence
state and flags of the `clientSession` (modelled from spec section 4.2, the
clientSession file is not under src/), the envelope under construction and
the consecutive-command-error counter, both local variables of
`handleTCPConnection`, plus a counter used to generate fresh envelope ids
(the id generator produces opaque distinct strings). -/
structure SessState where
  seq : SeqState
  isTLS : Bool
  heloSeen : Bool
  mailTransactionStarted : Bool
  envelopeData : Envelope
  totalCommandErrors : Nat
  nextId : Nat
  remoteAddr : String
deriving DecidableEq, Repr

/-- Modelled from the spec: `clientSession.markState` (section 4.2).  It is
called by `server.go` right after `verifyState`, before the verb's own
handling: HELO/EHLO move to HELO_OK, MAIL FROM to FROM_OK (and starts the
mail transaction), RCPT TO to RCPT_OK, DATA to DATA_MODE, STARTTLS resets
to GREETED; the remaining verbs leave the state unchanged. -/
def markState (st : SessState) (cmd : SMTPCmd) : SessState :=
  match cmd with
  | .HELO => { st with seq := .HELO_OK, heloSeen := true }
  | .EHLO => { st with seq := .HELO_OK, heloSeen := true }
  | .MAILFROM => { st with seq := .FROM_OK, mailTransactionStarted := true }
  | .RCPTTO => { st with seq := .RCPT_OK }
  | .DATA => { st with seq := .DATA_MODE }
  | .STARTTLS => { st with seq := .GREETED }
  | _ => st

/-- Server-level configuration relevant to one session: the server name
announced in replies, whether this listener is the implicit-TLS one
(`withTLS` in `tcpServer`), and whether an envelope channel was supplied
(`queueForDelivery` sends only when `envelopeChannel != nil`). -/
structure ServerCfg where
  name : String
  withTLS : Bool
  hasChannel : Bool
deriving DecidableEq, Repr

/-- Modelled from the spec: reply-string constants of the smtpd package; the
constants file is not under src/.  The texts follow spec sections 4.2 and 8. -/
def kBadCommandSequence : String := "503 Bad command sequence"

/-- Modelled from the spec: closing reply, written on QUIT and on TLS
handshake failure. -/
def kClosingConnection : String := "221 Bye"

/-- Modelled from the spec: reply on accepted MAIL FROM / RCPT TO. -/
def kRecipientAccepted : String := "250 OK"

/-- Modelled from the spec: reply on an address that fails to parse. -/
def kRequestAborted : String := "451 Requested action aborted"

/-- Modelled from the spec: reply to DATA. -/
def kSendData : String := "354 Start mail input; end with <CRLF>.<CRLF>"

/-- Modelled from the spec: reply for unimplemented verbs (EXPN, AUTH). -/
def kCommandNotImplemented : String := "502 Not implemented"

/-- Modelled from the spec: reply to NOOP. -/
def kNoopCommand : String := "250 OK"

/-- Modelled from the spec: reply to VRFY. -/
def kVerifyAddress : String := "252 Cannot VRFY"

/-- Modelled from the spec: the fixed SIZE value advertised in the EHLO
reply; the exact number is not in src/ and only the line's framing matters
to the claims. -/
def kFixedSize : Nat := 10240000

/-- Modelled from the spec: the greeting written right after accept,
`220 <server-name> ESMTP` (spec section 4.2; `server.go` formats the
`kGreeting` template with the domain name at first use). -/
def greeting (name : String) : String :=
  "220 " ++ name ++ " ESMTP"

/-- The EHLO reply lines, in the exact order `server.go` writes them
(lines 298 to 310): hello, SIZE, PIPELINING, then `250 8BITMIME` with a
space, then VRFY and HELP with hyphens, then STARTTLS (hyphen) exactly when
neither the listener nor the session is already TLS. -/
def ehloLines (cfg : ServerCfg) (isTLS : Bool) (remoteAddr : String) : List String :=
  ["250-" ++ cfg.name ++ " Hello " ++ remoteAddr,
   "250-SIZE " ++ toString kFixedSize,
   "250-PIPELINING",
   "250 8BITMIME",
   "250-VRFY",
   "250-HELP"] ++ (if !cfg.withTLS && !isTLS then ["250-STARTTLS"] else [])

/-- Observable actions of a session: a reply written to the client, an
envelope published to the ingest channel (`queueForDelivery`), or a call to
`SetReadDeadline` with the deadline in minutes.  The session command loop
in `server.go` performs no `SetReadDeadline` call; the constructor exists so
that this absence is a provable statement. -/
inductive Event
  | wrote (s : String)
  | queued (e : Envelope)
  | setDeadline (minutes : Nat)
deriving DecidableEq, Repr

/-- True exactly on a `setDeadline` event. -/
def Event.isDeadlineSet : Event → Bool
  | .setDeadline _ => true
  | _ => false

/-- Result of one iteration of the `command_loop`: either the loop breaks
(connection about to close) or it continues with updated session state,
remaining input, remaining handshake oracle, having emitted some events. -/
inductive IterResult
  | halt (events : List Event)
  | cont (st : SessState) (input : List Char) (hs : List Bool) (events : List Event)
deriving DecidableEq, Repr

/-- The events emitted by one loop iteration. -/
def IterResult.events : IterResult → List Event
  | .halt evs => evs
  | .cont _ _ _ evs => evs

/-- The continuation state of an iteration, when the loop continues. -/
def IterResult.contState : IterResult → Option SessState
  | .halt _ => none
  | .cont st _ _ _ => some st

/-- The DATA_MODE branch of the command loop (server.go lines 164 to 195):
read a dot-terminated body; on read error break; when the decoded body is
non-empty assign it to the envelope, reply `250 OK: queued as <id>`, mark
POST_DATA and publish the envelope; when the decoded body is empty simply
continue the loop, still in DATA_MODE. -/
def dataIter (cfg : ServerCfg) (st : SessState) (input : List Char) (hs : List Bool) :
    IterResult :=
  match readDotBytes input with
  | none => .halt []
  | some (dotBytes, rest) =>
    if 0 < dotBytes.length then
      let env := { st.envelopeData with Message := dotBytes }
      .cont { st with envelopeData := env, seq := .POST_DATA } rest hs
        ([.wrote ("250 OK: queued as " ++ env.Id)] ++
          (if cfg.hasChannel then [.queued env] else []))
    else
      .cont st rest hs []

/-- The switch on the parsed verb (server.go lines 229 to 358), entered
after `verifyState` succeeded and `markState` ran; `st` is the state after
`markState`. -/
def execCommand (cfg : ServerCfg) (st : SessState) (cmd : SMTPCmd) (arg : String)
    (rest : List Char) (hs : List Bool) : IterResult :=
  match cmd with
  | .EXPN => .cont st rest hs [.wrote kCommandNotImplemented]
  | .HELP => .cont st rest hs
      [.wrote "214 SMTP servers help those who help themselves.",
       .wrote "214 Go read http://cr.yp.to/smtp.html."]
  | .NOOP => .cont st rest hs [.wrote kNoopCommand]
  | .VRFY => .cont st rest hs [.wrote kVerifyAddress]
  | .RSET =>
    let st2 := { st with
      envelopeData := newEnvelope ("id" ++ toString st.nextId) st.remoteAddr,
      nextId := st.nextId + 1,
      seq := if st.heloSeen then SeqState.HELO_OK else SeqState.GREETED }
    .cont st2 rest hs [.wrote "250 OK"]
  | .STARTTLS =>
    if hs.headD false then
      let env :=
        if st.mailTransactionStarted then st.envelopeData
        else { st.envelopeData with SecurelyDelivered := true }
      .cont { st with isTLS := true, envelopeData := env } rest hs.tail []
    else
      .halt [.wrote kClosingConnection]
  | .HELO => .cont st rest hs
      [.wrote ("250 " ++ cfg.name ++ " Hello " ++ st.remoteAddr)]
  | .EHLO => .cont st rest hs ((ehloLines cfg st.isTLS st.remoteAddr).map .wrote)
  | .AUTH => .cont st rest hs [.wrote kCommandNotImplemented]
  | .MAILFROM =>
    match verifyEmailAddress arg with
    | none => .cont st rest hs [.wrote kRequestAborted]
    | some a =>
      .cont { st with envelopeData := { st.envelopeData with From := some a } }
        rest hs [.wrote kRecipientAccepted]
  | .RCPTTO =>
    match verifyEmailAddress arg with
    | none => .cont st rest hs [.wrote kRequestAborted]
    | some a =>
      let env :=
        match st.envelopeData.To with
        | none => { st.envelopeData with To := some a }
        | some _ => { st.envelopeData with Forwards := st.envelopeData.Forwards ++ [a] }
      .cont { st with envelopeData := env } rest hs [.wrote kRecipientAccepted]
  | .DATA => .cont st rest hs [.wrote kSendData]
  | .QUIT => .halt [.wrote kClosingConnection]

/-- Handling of one command line (server.go lines 198 to 358): parse; on a
parser error write the error reply, bump the error counter and break at
exactly 5; otherwise check the sequence table, replying
`503 Bad command sequence` with no state change on rejection; otherwise
mark the state and run the verb. -/
def commandIter (cfg : ServerCfg) (st : SessState) (line : String) (rest : List Char)
    (hs : List Bool) : IterResult :=
  match parseCmd line with
  | .errResp resp =>
    let errs := st.totalCommandErrors + 1
    if errs = 5 then .halt [.wrote resp]
    else .cont { st with totalCommandErrors := errs } rest hs [.wrote resp]
  | .ok cmd arg =>
    if verifyState st.seq cmd then
      execCommand cfg (markState st cmd) cmd arg rest hs
    else
      .cont st rest hs [.wrote kBadCommandSequence]

/-- One iteration of `command_loop` in `handleTCPConnection`: the DATA-mode
branch when the session is in DATA_MODE, otherwise read and handle one
command line. -/
def loopIter (cfg : ServerCfg) (st : SessState) (input : List Char) (hs : List Bool) :
    IterResult :=
  if st.seq = .DATA_MODE then
    dataIter cfg st input hs
  else
    let p := readLineT input
    commandIter cfg st p.1 p.2 hs

/-- Run the command loop under a fuel bound; returns the emitted events and
whether the loop broke of its own accord within the fuel. -/
def runAux (cfg : ServerCfg) : Nat → SessState → List Char → List Bool →
    List Event × Bool
  | 0, _, _, _ => ([], false)
  | fuel + 1, st, input, hs =>
    match loopIter cfg st input hs with
    | .halt evs => (evs, true)
    | .cont st2 input2 hs2 evs =>
      let r := runAux cfg fuel st2 input2 hs2
      (evs ++ r.1, r.2)

/-- The session state at the start of `handleTCPConnection`: a fresh
envelope for the client, GREETED sequence state, no TLS, no errors.  This
models the session of the plain listener (`NewClientSession` on the
accepted TCP socket). -/
def initialState (remoteAddr : String) : SessState :=
  { seq := .GREETED
    isTLS := false
    heloSeen := false
    mailTransactionStarted := false
    envelopeData := newEnvelope "id0" remoteAddr
    totalCommandErrors := 0
    nextId := 1
    remoteAddr := remoteAddr }

/-- Model of `handleTCPConnection` for the plain listener: write the
greeting, then run the command loop on the client's byte stream.  `hs` is
the oracle of TLS handshake outcomes, consumed one entry per STARTTLS.
The fuel `input.length + 6` dominates the loop: every continuing iteration
either consumes input or increments the error counter toward its cap of 5. -/
def handleTCPConnection (cfg : ServerCfg) (remoteAddr : String) (input : List Char)
    (hs : List Bool) : List Event × Bool :=
  let r := runAux cfg (input.length + 6) (initialState remoteAddr) input hs
  (Event.wrote (greeting cfg.name) :: r.1, r.2)

/-- The securely-delivered flags of the envelopes published to the ingest
channel, in publication order. -/
def queuedFlags (evs : List Event) : List Bool :=
  evs.filterMap fun e =>
    match e with
    | .queued env => some env.SecurelyDelivered
    | _ => none

/-- The message bodies of the envelopes published to the ingest channel, in
publication order. -/
def queuedMessages (evs : List Event) : List (List Char) :=
  evs.filterMap fun e =>
    match e with
    | .queued env => some env.Message
    | _ => none

/-- State of the accept loop of `Start` (server.go lines 92 to 111): whether
`clientMutex` is held and the value of `totalClientConnections`. -/
structure ListenerState where
  mutexLocked : Bool
  totalClientConnections : Nat
deriving DecidableEq, Repr

/-- Outcome of one accept-loop iteration: the iteration blocks forever on
`clientMutex.Lock()`, or the connection is turned away at the cap (recording
whether the accepted socket was closed), or the connection is admitted
(recording the read deadline, in minutes, set on it). -/
inductive AcceptOutcome
  | blocked
  | rejectedAtCap (socketClosed : Bool)
  | admitted (deadlineMinutes : Nat)
deriving DecidableEq, Repr

/-- One iteration of the accept loop in `Start` (server.go lines 93 to 109),
for an arriving connection: `clientMutex.Lock()` (blocking forever if the
mutex is already held); if `totalClientConnections >= maxClientConnections`
log and `continue` — leaving the mutex locked and never closing the accepted
socket; otherwise unlock, call `conn.SetReadDeadline(now + 4 minutes)` and
spawn the session (whose `incrementConnectionCounter` bumps the counter;
the spawn is sequentialised here). -/
def acceptIteration (maxConns : Nat) (st : ListenerState) :
    ListenerState × AcceptOutcome :=
  if st.mutexLocked then (st, .blocked)
  else if maxConns ≤ st.totalClientConnections then
    ({ st with mutexLocked := true }, .rejectedAtCap false)
  else
    ({ st with totalClientConnections := st.totalClientConnections + 1 },
      .admitted 4)

/-- Result of the HTTP JSON controller: the Content-Type header it set, the
body it wrote and the status code. -/
structure JSONResponse where
  contentType : String
  body : String
  status : Nat
deriving DecidableEq, Repr

/-- Outcome of `json.Marshal(data)` as seen by `SimpleController.JSON`:
either the marshalled bytes or an error (with whether the error is
`io.EOF`, which `Error500` special-cases). -/
inductive MarshalResult
  | ok (content : String)
  | err (isEOF : Bool) (msg : String)
deriving DecidableEq, Repr

/-- Model of `SimpleController.Error500`: `io.EOF` is reported as
`Item not found`, otherwise the error text; `http.Error` writes the body
with a trailing newline, text/plain content type and status 500. -/
def error500 (isEOF : Bool) (msg : String) : JSONResponse :=
  if isEOF then
    { contentType := "text/plain; charset=utf-8", body := "Item not found\n", status := 500 }
  else
    { contentType := "text/plain; charset=utf-8", body := msg ++ "\n", status := 500 }

/-- Model of `SimpleController.JSON`: set the JSON content type; marshal; on
error delegate to `Error500`; when the marshalled bytes equal `null` write
`\x7b\x7d` instead; otherwise write the marshalled bytes. -/
def simpleControllerJSON (m : MarshalResult) : JSONResponse :=
  match m with
  | .err isEOF msg => error500 isEOF msg
  | .ok content =>
    if content = "null" then
      { contentType := "application/json; charset=utf-8", body := "\x7b\x7d", status := 200 }
    else
      { contentType := "application/json; charset=utf-8", body := content, status := 200 }

/-- A concrete server configuration used by the concrete traces below: plain
listener, envelope channel present. -/
def cfg0 : ServerCfg :=
  { name := "mail.example", withTLS := false, hasChannel := true }

/-- A concrete client remote address used by the concrete traces below. -/
def addr0 : String := "203.0.113.9:5200"

/-- Helper lemma: `markState` never touches the error counter. -/
theorem markState_errors (st : SessState) (cmd : SMTPCmd) :
    (markState st cmd).totalCommandErrors = st.totalCommandErrors := by
  cases cmd <;> simp [markState]

/-- Helper lemma: the verb switch never touches the error counter of a
continuing session. -/
theorem execCommand_errors (cfg : ServerCfg) (st : SessState) (cmd : SMTPCmd)
    (arg : String) (rest : List Char) (hs : List Bool) (st2 : SessState) :
    (execCommand cfg st cmd arg rest hs).contState = some st2 →
    st2.totalCommandErrors = st.totalCommandErrors := by
  cases cmd <;>
    simp only [execCommand] <;>
    (repeat' split) <;>
    intro h <;>
    simp only [IterResult.contState, Option.some.injEq] at h <;>
    first
      | exact Option.noConfusion h
      | (subst h; rfl)

/-- Helper lemma: no event of the verb switch is a deadline call. -/
theorem execCommand_deadline_free (cfg : ServerCfg) (st : SessState) (cmd : SMTPCmd)
    (arg : String) (rest : List Char) (hs : List Bool) :
    ((execCommand cfg st cmd arg rest hs).events.all fun e => !e.isDeadlineSet) = true := by
  cases cmd <;>
    simp only [execCommand] <;>
    (repeat' split) <;>
    (try simp [IterResult.events, Event.isDeadlineSet, ehloLines, List.all_map]) <;>
    (intros; subst_vars; rfl)

/-- Helper lemma: no event of the DATA-mode branch is a deadline call. -/
theorem dataIter_deadline_free (cfg : ServerCfg) (st : SessState) (input : List Char)
    (hs : List Bool) :
    ((dataIter cfg st input hs).events.all fun e => !e.isDeadlineSet) = true := by
  unfold dataIter
  (repeat' split) <;> simp [IterResult.events, Event.isDeadlineSet]

/-- Helper lemma: no event of one command handling is a deadline call. -/
theorem commandIter_deadline_free (cfg : ServerCfg) (st : SessState) (line : String)
    (rest : List Char) (hs : List Bool) :
    ((commandIter cfg st line rest hs).events.all fun e => !e.isDeadlineSet) = true := by
  unfold commandIter
  split
  · dsimp only
    split <;> simp [IterResult.events, Event.isDeadlineSet]
  · split
    · exact execCommand_deadline_free cfg (markState st _) _ _ rest hs
    · simp [IterResult.events, Event.isDeadlineSet]

/-- Helper lemma: no event of one loop iteration is a deadline call. -/
theorem loopIter_deadline_free (cfg : ServerCfg) (st : SessState) (input : List Char)
    (hs : List Bool) :
    ((loopIter cfg st input hs).events.all fun e => !e.isDeadlineSet) = true := by
  unfold loopIter
  split
  · exact dataIter_deadline_free cfg st input hs
  · exact commandIter_deadline_free cfg st (readLineT input).1 (readLineT input).2 hs

/-- Helper lemma: the session command loop performs no deadline call. -/
theorem runAux_deadline_free (cfg : ServerCfg) :
    ∀ (fuel : Nat) (st : SessState) (input : List Char) (hs : List Bool),
      ((runAux cfg fuel st input hs).1.all fun e => !e.isDeadlineSet) = true := by
  intro fuel
  induction fuel with
  | zero =>
    intro st input hs
    simp [runAux]
  | succ n ih =>
    intro st input hs
    rw [runAux]
    rcases h : loopIter cfg st input hs with evs | ⟨st2, in2, hs2, evs⟩ <;>
      have hf := loopIter_deadline_free cfg st input hs <;>
      rw [h] at hf <;>
      simp only [IterResult.events] at hf
    · simpa using hf
    · simp only [List.all_append, Bool.and_eq_true]
      exact ⟨hf, ih st2 in2 hs2⟩

/-- Helper lemma: a whole session performs no deadline call. -/
theorem handleTCPConnection_deadline_free (cfg : ServerCfg) (remoteAddr : String)
    (input : List Char) (hs : List Bool) :
    ((handleTCPConnection cfg remoteAddr input hs).1.all fun e => !e.isDeadlineSet) = true := by
  simp only [handleTCPConnection, List.all_cons, Bool.and_eq_true]
  exact ⟨rfl, runAux_deadline_free cfg _ _ _ _⟩

/-- C1 (amended): `securely_delivered` is set at the instant the STARTTLS
handshake succeeds, on the envelope then under construction, provided no
mail transaction was initiated; an envelope freshly allocated by RSET has
`securely_delivered = false`; and an accepted MAIL FROM never changes the
flag.  (The original claim — that the flag is fixed at MAIL FROM time and
holds for every envelope sealed on a TLS-wrapped channel, including one
allocated by RSET after the upgrade — fails on the code.) -/
theorem c1_starttls_flag_amended (cfg : ServerCfg) (st : SessState) (arg : String)
    (rest : List Char) (hs : List Bool) (a : String) :
    (st.mailTransactionStarted = false →
      execCommand cfg st .STARTTLS arg rest (true :: hs) =
        .cont { st with
                isTLS := true,
                envelopeData := { st.envelopeData with SecurelyDelivered := true } }
          rest hs []) ∧
    ((execCommand cfg st .RSET arg rest hs).contState.map
        (fun s => s.envelopeData.SecurelyDelivered) = some false) ∧
    (verifyEmailAddress arg = some a →
      (execCommand cfg st .MAILFROM arg rest hs).contState.map
        (fun s => s.envelopeData.SecurelyDelivered) =
        some st.envelopeData.SecurelyDelivered) := by
  refine ⟨fun h => ?_, ?_, fun h => ?_⟩
  · simp [execCommand, h]
  · simp [execCommand, newEnvelope, IterResult.contState]
  · simp [execCommand, h, IterResult.contState]

/-- C1 witness: the amended statement instantiated on a concrete session
state with no mail transaction under way. -/
theorem c1_starttls_flag_witness :
    execCommand cfg0 (initialState addr0) .STARTTLS "" [] (true :: []) =
      .cont { initialState addr0 with
              isTLS := true,
              envelopeData := { (initialState addr0).envelopeData with
                                  SecurelyDelivered := true } }
        [] [] [] ∧
    (execCommand cfg0 (initialState addr0) .RSET "" [] []).contState.map
        (fun s => s.envelopeData.SecurelyDelivered) = some false := by
  exact ⟨(c1_starttls_flag_amended cfg0 (initialState addr0) "" [] [] "a@b").1 rfl,
         (c1_starttls_flag_amended cfg0 (initialState addr0) "" [] [] "a@b").2.1⟩

/-- C1 counterexample: in a session that runs HELO, a successful STARTTLS,
then RSET, MAIL FROM, RCPT TO and DATA, the MAIL FROM is issued after the
successful STARTTLS, yet the one envelope published to the ingest stage has
`securely_delivered = false` — the claimed iff fails for the envelope
freshly allocated by RSET after the TLS upgrade. -/
theorem c1_rset_after_tls_counterexample :
    queuedFlags (handleTCPConnection cfg0 addr0
      ("HELO x\r\nSTARTTLS\r\nRSET\r\nMAIL FROM:<a@b>\r\nRCPT TO:<c@d>\r\nDATA\r\nhi\r\n.\r\nQUIT\r\n".toList)
      [true]).1 = [false] := by
  decide

/-- C2 (code bug): in DATA mode a client that sends only the dot-terminator
line (an empty body) does not get its envelope sealed: the
`len(dotBytes) > 0` guard sends the loop back into DATA mode, so no
`250 OK: queued as` reply is written, nothing is published, and the
subsequent QUIT line is swallowed as body bytes until the read fails —
the session ends with only the replies up to and including the 354. -/
theorem c2_empty_body_code_bug :
    handleTCPConnection cfg0 addr0
      ("HELO x\r\nMAIL FROM:<a@b>\r\nRCPT TO:<c@d>\r\nDATA\r\n.\r\nQUIT\r\n".toList) [] =
    ([.wrote "220 mail.example ESMTP",
      .wrote "250 mail.example Hello 203.0.113.9:5200",
      .wrote "250 OK",
      .wrote "250 OK",
      .wrote "354 Start mail input; end with <CRLF>.<CRLF>"], true) := by
  decide

/-- C3 (code bug): when an accept-loop iteration finds the connection count
at the cap, it neither closes the accepted socket nor releases the client
mutex, and the next accept-loop iteration blocks forever on the mutex, so
later connections below the cap are never admitted. -/
theorem c3_cap_code_bug :
    acceptIteration 1 { mutexLocked := false, totalClientConnections := 1 } =
      ({ mutexLocked := true, totalClientConnections := 1 }, .rejectedAtCap false) ∧
    acceptIteration 1 { mutexLocked := true, totalClientConnections := 1 } =
      ({ mutexLocked := true, totalClientConnections := 1 }, .blocked) := by
  decide

/-- C4 (amended): the session's error counter counts parser rejections
cumulatively over the whole session — a successfully parsed command does
not reset it — and the session terminates right after the reply to the
rejection that brings the total to five. -/
theorem c4_error_budget_amended (cfg : ServerCfg) (st : SessState)
    (line line2 : String) (rest : List Char) (hs : List Bool) (resp : String)
    (cmd : SMTPCmd) (arg : String) (st2 : SessState) :
    (parseCmd line = .errResp resp → st.totalCommandErrors + 1 = 5 →
      commandIter cfg st line rest hs = .halt [.wrote resp]) ∧
    (parseCmd line = .errResp resp → st.totalCommandErrors + 1 ≠ 5 →
      commandIter cfg st line rest hs =
        .cont { st with totalCommandErrors := st.totalCommandErrors + 1 } rest hs
          [.wrote resp]) ∧
    (parseCmd line2 = .ok cmd arg →
      (commandIter cfg st line2 rest hs).contState = some st2 →
      st2.totalCommandErrors = st.totalCommandErrors) := by
  refine ⟨fun hp h5 => ?_, fun hp h5 => ?_, fun hp hc => ?_⟩
  · simp [commandIter, hp, h5]
  · simp [commandIter, hp, h5]
  · simp only [commandIter, hp] at hc
    by_cases hv : verifyState st.seq cmd = true
    · rw [if_pos hv] at hc
      have h2 := execCommand_errors cfg (markState st cmd) cmd arg rest hs st2 hc
      rw [h2, markState_errors]
    · rw [if_neg hv] at hc
      simp only [IterResult.contState, Option.some.injEq] at hc
      subst hc; rfl

/-- C4 witness: the amended statement instantiated concretely — a fifth
cumulative rejection halts the session, and a successfully handled NOOP
leaves the counter unchanged. -/
theorem c4_error_budget_witness :
    commandIter cfg0 { initialState addr0 with totalCommandErrors := 4 } "FOO" [] [] =
      .halt [.wrote "500 Syntax error, command unrecognized"] ∧
    ({ initialState addr0 with
        seq := SeqState.HELO_OK,
        totalCommandErrors := 3 } : SessState).totalCommandErrors = 3 := by
  constructor
  · exact (c4_error_budget_amended cfg0
      { initialState addr0 with totalCommandErrors := 4 } "FOO" "NOOP" [] []
      "500 Syntax error, command unrecognized" .NOOP ""
      { initialState addr0 with totalCommandErrors := 4 }).1 (by decide) (by decide)
  · exact (c4_error_budget_amended cfg0
      { initialState addr0 with seq := SeqState.HELO_OK, totalCommandErrors := 3 }
      "FOO" "NOOP" [] [] "500 Syntax error, command unrecognized" .NOOP ""
      { initialState addr0 with
        seq := SeqState.HELO_OK,
        totalCommandErrors := 3 }).2.2 (by decide) (by decide)

/-- C4 counterexample: a session whose rejections are interleaved with a
successfully parsed NOOP still terminates right after the fifth rejection
overall — the five rejections are not consecutive (the maximum consecutive
run is four), and the final NOOP in the input is never processed.  This
refutes both the reset-on-success and the five-consecutive reading of the
original claim. -/
theorem c4_nonconsecutive_counterexample :
    handleTCPConnection cfg0 addr0
      ("FOO\r\nNOOP\r\nBAR\r\nBAZ\r\nQUX\r\nZAP\r\nNOOP\r\n".toList) [] =
    ([.wrote "220 mail.example ESMTP",
      .wrote "500 Syntax error, command unrecognized",
      .wrote "250 OK",
      .wrote "500 Syntax error, command unrecognized",
      .wrote "500 Syntax error, command unrecognized",
      .wrote "500 Syntax error, command unrecognized",
      .wrote "500 Syntax error, command unrecognized"], true) := by
  decide

/-- C5 (amended): an accepted STARTTLS command writes no reply at all before
the handshake (in particular no `220 Ready to start TLS`); on handshake
failure the session writes `221 Bye` and terminates; on handshake success
it marks the session TLS and continues, still without writing anything.
(The buffered reader is rebuilt on the TLS socket before the handshake is
attempted, not upon its success.) -/
theorem c5_starttls_reply_amended (cfg : ServerCfg) (st : SessState) (arg : String)
    (rest : List Char) (hs : List Bool) :
    (∀ e ∈ (execCommand cfg st .STARTTLS arg rest hs).events,
      e ≠ .wrote "220 Ready to start TLS") ∧
    (hs.headD false = false →
      execCommand cfg st .STARTTLS arg rest hs = .halt [.wrote kClosingConnection]) ∧
    (hs.headD false = true →
      (execCommand cfg st .STARTTLS arg rest hs).events = [] ∧
      (execCommand cfg st .STARTTLS arg rest hs).contState.map SessState.isTLS =
        some true) := by
  refine ⟨?_, fun h => ?_, fun h => ?_⟩
  · rcases hb : hs.headD false <;>
      simp only [execCommand, hb] <;>
      (try split) <;>
      intro e he <;>
      simp_all [IterResult.events, kClosingConnection]
  · simp only [execCommand, h]
    simp
  · refine ⟨?_, ?_⟩ <;>
      simp only [execCommand, h] <;>
      simp [IterResult.events, IterResult.contState]

/-- C5 witness: the amended statement instantiated concretely — a failed
handshake yields `221 Bye` and termination. -/
theorem c5_starttls_reply_witness :
    execCommand cfg0 (initialState addr0) .STARTTLS "" [] [false] =
      .halt [.wrote kClosingConnection] := by
  exact (c5_starttls_reply_amended cfg0 (initialState addr0) "" [] [false]).2.1 rfl

/-- C5 counterexample: a session that accepts STARTTLS (with a succeeding
handshake) never writes `220 Ready to start TLS`; its complete reply
sequence is the greeting, the HELO reply and the final `221 Bye`. -/
theorem c5_no_ready_reply_counterexample :
    (handleTCPConnection cfg0 addr0 ("HELO x\r\nSTARTTLS\r\nQUIT\r\n".toList) [true]).1 =
      [.wrote "220 mail.example ESMTP",
       .wrote "250 mail.example Hello 203.0.113.9:5200",
       .wrote "221 Bye"] ∧
    Event.wrote "220 Ready to start TLS" ∉
      (handleTCPConnection cfg0 addr0 ("HELO x\r\nSTARTTLS\r\nQUIT\r\n".toList) [true]).1 := by
  decide

/-- C6 (amended): on a successful DATA read the sealed message equals the
wire body with dot-stuffing undone, the terminating dot line stripped, and
CRLF line endings mapped to LF (Go's `textproto` dot decoding) — not the
raw CRLF bytes: the wire body `hi\r\n.\r\n` decodes to `hi\n`, and the
dot-stuffed `..x\r\n.\r\n` decodes to `.x\n`. -/
theorem c6_message_decode_amended (cfg : ServerCfg) (st : SessState)
    (input rest d : List Char) (hs : List Bool) :
    (readDotBytes input = some (d, rest) → 0 < d.length →
      dataIter cfg st input hs =
        .cont { st with
                envelopeData := { st.envelopeData with Message := d },
                seq := .POST_DATA } rest hs
          ([.wrote ("250 OK: queued as " ++ st.envelopeData.Id)] ++
            (if cfg.hasChannel then
              [.queued { st.envelopeData with Message := d }] else []))) ∧
    readDotBytes ("hi\r\n.\r\n".toList) = some ("hi\n".toList, []) ∧
    readDotBytes ("..x\r\n.\r\n".toList) = some (".x\n".toList, []) := by
  refine ⟨fun h hl => ?_, by decide, by decide⟩
  simp [dataIter, h, hl]

/-- C6 witness: the amended statement instantiated on a concrete DATA-mode
state with the wire body `hi\r\n.\r\n`. -/
theorem c6_message_decode_witness :
    dataIter cfg0 { initialState addr0 with seq := .DATA_MODE }
        ("hi\r\n.\r\n".toList) [] =
      .cont { initialState addr0 with
              envelopeData := { (initialState addr0).envelopeData with
                                  Message := "hi\n".toList },
              seq := .POST_DATA } [] []
        ([.wrote "250 OK: queued as id0"] ++
          [.queued { (initialState addr0).envelopeData with
                       Message := "hi\n".toList }]) := by
  exact (c6_message_decode_amended cfg0 { initialState addr0 with seq := .DATA_MODE }
    ("hi\r\n.\r\n".toList) [] ("hi\n".toList) []).1 (by decide) (by decide)

/-- C6 counterexample: for the end-to-end scenario whose wire body is
`hi\r\n.\r\n`, the published envelope's message is `hi\n`, which differs
from the byte-exact CRLF form `hi\r\n` asserted by the claim. -/
theorem c6_crlf_counterexample :
    queuedMessages (handleTCPConnection cfg0 addr0
      ("HELO x\r\nMAIL FROM:<a@b>\r\nRCPT TO:<c@d>\r\nDATA\r\nhi\r\n.\r\nQUIT\r\n".toList)
      []).1 = ["hi\n".toList] ∧
    "hi\n".toList ≠ "hi\r\n".toList := by
  decide

/-- C7 (code bug): in every EHLO reply the code emits exactly one line whose
`250` is followed by a space — but that line (`250 8BITMIME`) sits in the
middle of the reply, and the reply's last line is hyphen-framed, whichever
way STARTTLS advertising goes.  The claim that the terminal space-framed
line is last fails. -/
theorem c7_ehlo_framing_code_bug :
    ∀ wTLS iTLS : Bool,
      ((ehloLines { name := "mail.example", withTLS := wTLS, hasChannel := true }
          iTLS addr0).countP
        (fun l => listStartsWith ("250 ".toList) l.toList)) = 1 ∧
      (listStartsWith ("250-".toList)
        ((ehloLines { name := "mail.example", withTLS := wTLS, hasChannel := true }
          iTLS addr0).getLastD "").toList) = true := by
  decide

/-- C8 (confirmed): when a parsed verb is not permitted by the sequence
table in the current state, the session replies `503 Bad command sequence`
and continues with the session state — sequence state, envelope under
construction, flags and error counter — entirely unchanged. -/
theorem c8_bad_sequence_frame (cfg : ServerCfg) (st : SessState)
    (input rest : List Char) (hs : List Bool) (line : String) (cmd : SMTPCmd)
    (arg : String) (hseq : st.seq ≠ .DATA_MODE)
    (hline : readLineT input = (line, rest))
    (hparse : parseCmd line = .ok cmd arg)
    (hver : verifyState st.seq cmd = false) :
    loopIter cfg st input hs = .cont st rest hs [.wrote kBadCommandSequence] := by
  simp only [loopIter, if_neg hseq, hline]
  simp [commandIter, hparse, hver]

/-- C8 witness: DATA issued in the GREETED state is rejected with 503 and
the session state is untouched. -/
theorem c8_bad_sequence_frame_witness :
    loopIter cfg0 (initialState addr0) ("DATA\r\n".toList) [] =
      .cont (initialState addr0) [] [] [.wrote kBadCommandSequence] := by
  exact c8_bad_sequence_frame cfg0 (initialState addr0) ("DATA\r\n".toList) [] []
    "DATA" .DATA "" (by decide) (by decide) (by decide) (by decide)

/-- C9 (amended): an admitted connection gets a single read deadline of a
hard-coded four minutes, set in the accept loop; the session command loop
never sets a read deadline again — in particular it is not refreshed after
a successful command read. -/
theorem c9_deadline_amended :
    (∀ (m : Nat) (st : ListenerState), st.mutexLocked = false →
      st.totalClientConnections < m →
      acceptIteration m st =
        ({ st with totalClientConnections := st.totalClientConnections + 1 },
          .admitted 4)) ∧
    (∀ (cfg : ServerCfg) (remoteAddr : String) (input : List Char) (hs : List Bool),
      ((handleTCPConnection cfg remoteAddr input hs).1.all
        fun e => !e.isDeadlineSet) = true) := by
  constructor
  · intro m st h1 h2
    simp [acceptIteration, h1, Nat.not_le.mpr h2]
  · exact fun cfg remoteAddr input hs =>
      handleTCPConnection_deadline_free cfg remoteAddr input hs

/-- C9 witness: the amended statement instantiated concretely — a below-cap
accept admits with the four-minute deadline, and a concrete session trace
contains no deadline call. -/
theorem c9_deadline_witness :
    acceptIteration 64000 { mutexLocked := false, totalClientConnections := 0 } =
      ({ mutexLocked := false, totalClientConnections := 1 }, .admitted 4) ∧
    ((handleTCPConnection cfg0 addr0 ("HELO x\r\nQUIT\r\n".toList) []).1.all
      fun e => !e.isDeadlineSet) = true := by
  exact ⟨c9_deadline_amended.1 64000
          { mutexLocked := false, totalClientConnections := 0 } rfl (by decide),
         c9_deadline_amended.2 cfg0 addr0 ("HELO x\r\nQUIT\r\n".toList) []⟩

/-- C9 counterexample: a session with a successful command read (the HELO,
answered with its 250 reply) performs zero deadline refreshes — the claim
that the deadline is re-set after each successful command read fails. -/
theorem c9_no_refresh_counterexample :
    (handleTCPConnection cfg0 addr0 ("HELO x\r\nQUIT\r\n".toList) []).1 =
      [.wrote "220 mail.example ESMTP",
       .wrote "250 mail.example Hello 203.0.113.9:5200",
       .wrote "221 Bye"] ∧
    ((handleTCPConnection cfg0 addr0 ("HELO x\r\nQUIT\r\n".toList) []).1.countP
        Event.isDeadlineSet) = 0 := by
  decide

/-- C10 (confirmed): when marshalling succeeds, `SimpleController.JSON`
never writes the literal bytes `null`: a marshalled `null` is replaced by
the empty-object body, anything else is written verbatim, and the JSON
content type is set in both cases. -/
theorem c10_json_never_null (content : String) :
    (simpleControllerJSON (.ok content)).contentType =
      "application/json; charset=utf-8" ∧
    (simpleControllerJSON (.ok content)).body ≠ "null" ∧
    (content = "null" →
      (simpleControllerJSON (.ok content)).body = "\x7b\x7d") := by
  by_cases h : content = "null" <;>
    simp [simpleControllerJSON, h]

/-- C10 witness: the theorem instantiated at the marshalled outputs `null`
and `[1,2]`. -/
theorem c10_json_never_null_witness :
    (simpleControllerJSON (.ok "null")).body = "\x7b\x7d" ∧
    (simpleControllerJSON (.ok "[1,2]")).body ≠ "null" := by
  exact ⟨(c10_json_never_null "null").2.2 rfl, (c10_json_never_null "[1,2]").2.1⟩

end Honeymail
